import Mathlib

/-!
Shallow embedding of the Signal Detector subsystem of the `backand` repository
(`src/alert/alert_manager.py`, `src/database/database_queries.py`) together with
proofs about the claims of the natural-language specification.

Conventions of the embedding:
* Python floats are modelled as rationals (`ℚ`); the detector only multiplies,
  divides and compares, so exact arithmetic is faithful for the stated claims.
* Epoch-millisecond timestamps are `ℤ`.
* The mutable per-manager dictionaries (`alert_cooldowns`,
  `consecutive_long_counters`, `preliminary_signals`) are modelled as total
  functions with `Option` values (for `consecutive_long_counters` the code only
  ever reads via `.get(symbol, 0)`, so it is modelled as `String → ℕ` where the
  `del` on a non-long candle stores `0`).
* `async` calls are pure: the database is passed in as a table plus an `ok` flag
  (`ok = false` models the `except`-and-return-default branch of the query
  methods), the imbalance analyzer (external module, not under `src/`) is a
  function parameter, and the clock is a `now` parameter.
* The result type of the external imbalance analyzer is an arbitrary type `ι`.
-/

/-- Incoming kline (candle) event data, the fields of `kline_data` read by
`AlertManager`: open/high/low/close, volume, and the exchange confirm flag. -/
structure Kline where
  open_ : ℚ
  high : ℚ
  low : ℚ
  close : ℚ
  volume : ℚ
  confirm : Bool
deriving DecidableEq

/-- A row of the `kline_data` table as used by the queries in
`database_queries.py`. -/
structure KlineRow where
  symbol : String
  start_time : ℤ
  open_price : ℚ
  high_price : ℚ
  low_price : ℚ
  close_price : ℚ
  volume : ℚ
  is_closed : Bool
  is_long : Bool
deriving DecidableEq

/-- Candle dictionary returned by `DatabaseQueries.get_recent_candles`. -/
structure Candle where
  timestamp : ℤ
  open_ : ℚ
  high : ℚ
  low : ℚ
  close : ℚ
  volume : ℚ
  is_long : Bool
  is_closed : Bool
deriving DecidableEq

/-- Python `str.lower()` restricted to ASCII letters (the configuration
strings compared by the queries are plain ASCII such as "long"/"short"). -/
def asciiLower (s : String) : String :=
  String.mk (s.data.map fun c => if c.isUpper then Char.ofNat (c.toNat + 32) else c)

/-- Direction filter of `get_historical_long_volumes`: `is_long = true` for
`'long'`, `is_long = false` for `'short'`, no condition otherwise. -/
def dirCond (volume_type : String) (r : KlineRow) : Bool :=
  if asciiLower volume_type = "long" then r.is_long
  else if asciiLower volume_type = "short" then !r.is_long
  else true

/-- Embedding of `DatabaseQueries.get_historical_long_volumes`: select closed
candles of the symbol whose `start_time` lies in the window of `hours` hours
ending `offset_minutes` before now, filtered by direction, ordered by
`start_time`, and map each row to its quote volume `volume * close_price`.
`ok = false` models the broad `except` branch, which returns `[]`. -/
def get_historical_long_volumes (ok : Bool) (table : List KlineRow) (symbol : String)
    (hours : ℤ) (offset_minutes : ℤ) (volume_type : String) (now_ms : ℤ) : List ℚ :=
  if ok then
    let offset_ms := offset_minutes * 60 * 1000
    let start_time_ms := now_ms - hours * 60 * 60 * 1000 - offset_ms
    let end_time_ms := now_ms - offset_ms
    let rows := table.filter fun r =>
      decide (r.symbol = symbol) && decide (start_time_ms ≤ r.start_time) &&
      decide (r.start_time < end_time_ms) && r.is_closed && dirCond volume_type r
    -- SQL ORDER BY start_time, embedded as a stable sort
    let sorted := rows.insertionSort fun a b => a.start_time ≤ b.start_time
    sorted.map fun r => r.volume * r.close_price
  else []

/-- Embedding of `DatabaseQueries.get_recent_candles`: the closed candles of the
symbol, ordered by `start_time` descending, limited to `limit`, returned in
chronological order. `ok = false` models the `except` branch returning `[]`. -/
def get_recent_candles (ok : Bool) (table : List KlineRow) (symbol : String)
    (limit : ℕ) : List Candle :=
  if ok then
    let rows := table.filter fun r => decide (r.symbol = symbol) && r.is_closed
    -- SQL ORDER BY start_time DESC, embedded as a stable sort
    let sorted := rows.insertionSort fun a b => b.start_time ≤ a.start_time
    let limited := sorted.take limit
    limited.reverse.map fun r =>
      { timestamp := r.start_time, open_ := r.open_price, high := r.high_price,
        low := r.low_price, close := r.close_price, volume := r.volume,
        is_long := r.is_long, is_closed := r.is_closed }
  else []

/-- The candle is LONG: `close > open`, as computed throughout
`alert_manager.py`. -/
def isLongCandle (k : Kline) : Bool := decide (k.open_ < k.close)

/-- Embedding of `AlertManager._update_consecutive_long_counter`: on a long
candle the symbol's counter is incremented, otherwise its entry is deleted;
since the counter is only ever read through `.get(symbol, 0)`, deletion is
modelled as storing `0`. -/
def updateConsecutiveLongCounter (counters : String → ℕ) (symbol : String)
    (k : Kline) : String → ℕ :=
  if isLongCandle k then
    fun s => if s = symbol then counters symbol + 1 else counters s
  else
    fun s => if s = symbol then 0 else counters s

/-- Folding the counter update over a sequence of confirmed candles for one
symbol. -/
def runCounterUpdates (counters : String → ℕ) (symbol : String) :
    List Kline → (String → ℕ)
  | [] => counters
  | k :: ks => runCounterUpdates (updateConsecutiveLongCounter counters symbol k) symbol ks

/-- Length of the maximal trailing run of long candles (the spec's "maximal
trailing run of candles with close > open"), defined structurally from the end
of the sequence. -/
def trailingLongRun (ks : List Kline) : ℕ :=
  (ks.reverse.takeWhile isLongCandle).length

/-- Alert kind tags used in `alert_manager.py` (the string values of
`AlertType` plus the literal preliminary/final tags). -/
inductive AlertKind where
  | volumeSpike
  | preliminaryVolumeSpike
  | finalVolumeSpike
  | consecutiveLong
  | priority
deriving DecidableEq

/-- Candle snapshot dictionary attached to alerts (`candle_data` in the code).
The only key that is present in some snapshots and absent in others is
`alert_level` (the consecutive alert's snapshot omits it), hence the `Option`. -/
structure CandleData where
  open_ : ℚ
  high : ℚ
  low : ℚ
  close : ℚ
  volume : ℚ
  alert_level : Option ℚ
deriving DecidableEq

/-- Python `dict.update` on candle snapshots: every key of `v` overrides the
corresponding key of `c`; `alert_level` is kept from `c` only when `v` lacks
it. -/
def dictUpdate (c v : CandleData) : CandleData :=
  { open_ := v.open_, high := v.high, low := v.low, close := v.close,
    volume := v.volume,
    alert_level := match v.alert_level with
      | some a => some a
      | none => c.alert_level }

/-- Alert record dictionary built by the detector steps. Fields that only some
alert kinds carry are `Option`s (absent key = `none`). `ι` is the result type
of the external imbalance analyzer, whose module is not part of the analysed
sources. The display-only `message` string is omitted. -/
structure AlertData (ι : Type) where
  symbol : String
  alert_type : AlertKind
  price : ℚ
  volume_ratio : Option ℚ
  current_volume_usdt : Option ℚ
  average_volume_usdt : Option ℚ
  timestamp : ℤ
  close_timestamp : Option ℤ
  is_closed : Option Bool
  is_true_signal : Option Bool
  is_preliminary : Option Bool
  consecutive_count : Option ℕ
  has_imbalance : Option Bool
  imbalance_data : Option ι
  candle_data : Option CandleData
  order_book_snapshot : Option Unit
  preliminary_timestamp : Option ℤ
deriving DecidableEq

/-- Manager state: the three per-symbol dictionaries of `AlertManager`. -/
structure AMState (ι : Type) where
  alert_cooldowns : String → Option ℤ
  consecutive_long_counters : String → ℕ
  preliminary_signals : String → Option (AlertData ι)

/-- Dictionary write `m[key] = v` on a string-keyed map. -/
def mapInsert (m : String → Option ℤ) (key : String) (v : ℤ) : String → Option ℤ :=
  fun s => if s = key then some v else m s

/-- The subset of `AlertManager.settings` the detector steps read. -/
structure Settings where
  volume_alerts_enabled : Bool
  consecutive_alerts_enabled : Bool
  priority_alerts_enabled : Bool
  analysis_hours : ℤ
  offset_minutes : ℤ
  volume_multiplier : ℚ
  min_volume_usdt : ℚ
  consecutive_long_count : ℕ
  alert_grouping_minutes : ℤ
  imbalance_enabled : Bool
  orderbook_enabled : Bool
  orderbook_snapshot_on_alert : Bool
  volume_type : String

/-- Python `int()` on a rational: truncation toward zero. -/
def pyInt (x : ℚ) : ℤ := if 0 ≤ x then ⌊x⌋ else ⌈x⌉

/-- Python `round(x, 2)` on a rational. Exact tie-breaking of binary floats is
immaterial to every claim below (no claim constrains the rounded digits). -/
def pyRound2 (x : ℚ) : ℚ := ((round (x * 100) : ℤ) : ℚ) / 100

section Manager

variable {ι : Type}

/-- Embedding of `AlertManager._check_preliminary_volume_signal` (unconfirmed
candles): reject unless close > open, reject when quote volume is below the
configured floor, no-op unless at least 10 historical quote-volume samples are
available, and emit exactly when the ratio of current quote volume to the mean
historical quote volume reaches the multiplier (the code sets the ratio to 0
when the mean is not positive). -/
def checkPreliminaryVolumeSignal (stg : Settings) (dbOk : Bool)
    (table : List KlineRow) (now : ℤ) (symbol : String) (k : Kline) :
    Option (AlertData ι) :=
  let current_price := k.close
  let open_price := k.open_
  if current_price ≤ open_price then none
  else
    let current_volume_usdt := k.volume * current_price
    if current_volume_usdt < stg.min_volume_usdt then none
    else
      let historical_volumes := get_historical_long_volumes dbOk table symbol
        stg.analysis_hours stg.offset_minutes stg.volume_type now
      if historical_volumes.length < 10 then none
      else
        let average_volume := historical_volumes.sum / (historical_volumes.length : ℚ)
        let volume_ratio :=
          if 0 < average_volume then current_volume_usdt / average_volume else 0
        if volume_ratio < stg.volume_multiplier then none
        else some
          { symbol := symbol, alert_type := .preliminaryVolumeSpike,
            price := current_price,
            volume_ratio := some (pyRound2 volume_ratio),
            current_volume_usdt := some ((pyInt current_volume_usdt : ℤ) : ℚ),
            average_volume_usdt := some ((pyInt average_volume : ℤ) : ℚ),
            timestamp := now, close_timestamp := none, is_closed := some false,
            is_true_signal := none, is_preliminary := some true,
            consecutive_count := none, has_imbalance := none,
            imbalance_data := none,
            candle_data := some
              { open_ := open_price, high := k.high, low := k.low,
                close := current_price, volume := k.volume,
                alert_level := some current_price },
            order_book_snapshot := none, preliminary_timestamp := none }

/-- Embedding of `AlertManager._check_final_volume_signal`: when a preliminary
signal is pending, always build a final alert that copies the preliminary's
ratio and volume figures and sets `is_true_signal` to close > open. -/
def checkFinalVolumeSignal (now : ℤ) (symbol : String) (k : Kline)
    (pre : Option (AlertData ι)) : Option (AlertData ι) :=
  match pre with
  | none => none
  | some p =>
    let close_price := k.close
    let open_price := k.open_
    let is_true_long := decide (open_price < close_price)
    some
      { symbol := symbol, alert_type := .finalVolumeSpike, price := close_price,
        volume_ratio := AlertData.volume_ratio p,
        current_volume_usdt := p.current_volume_usdt,
        average_volume_usdt := p.average_volume_usdt,
        timestamp := now, close_timestamp := some now, is_closed := some true,
        is_true_signal := some is_true_long, is_preliminary := some false,
        consecutive_count := none, has_imbalance := none, imbalance_data := none,
        candle_data := some
          { open_ := open_price, high := k.high, low := k.low,
            close := close_price, volume := k.volume,
            alert_level := some close_price },
        order_book_snapshot := none,
        preliminary_timestamp := some (AlertData.timestamp p) }

end Manager

/-- Result dictionary of `AlertValidators.validate_volume_alert`
(`{'valid': ..., 'volume_ratio': ..., 'current_volume_usdt': ...,
'average_volume_usdt': ...}`). The validator itself lives in
`alert_validators.py`, which is not among the analysed sources, so the
detector embeddings below take the validator as an arbitrary function. -/
structure ValidationResult where
  valid : Bool
  volume_ratio : ℚ
  current_volume_usdt : ℚ
  average_volume_usdt : ℚ

/-- Modelled from the spec: `AlertValidators.validate_priority_alert` is not
under `src/`; per §4.6 the priority alert is valid exactly when the
consecutive alert is present and either the volume alert is present or the
recent-volume probe is true. -/
def validate_priority_alert (volume_ok : Bool) (consecutive_ok : Bool)
    (recent_volume_alert : Bool) : Bool :=
  consecutive_ok && (volume_ok || recent_volume_alert)

/-- Replace the last element satisfying `p` (the object Python mutates in
place) by `x`, leaving every other element untouched. -/
def replaceLast {α : Type} (p : α → Bool) (x : α) : List α → List α
  | [] => []
  | a :: as =>
    if as.any p then a :: replaceLast p x as
    else if p a then x :: as else a :: as

section Manager2

variable {ι : Type}

/-- The alert counts as this cycle's volume alert in
`_check_priority_signal` (`volume_spike` or `final_volume_spike`). -/
def isVolumeFamily (a : AlertData ι) : Bool :=
  a.alert_type == AlertKind.volumeSpike || a.alert_type == AlertKind.finalVolumeSpike

/-- The alert is a consecutive-long alert. -/
def isConsecutiveKind (a : AlertData ι) : Bool :=
  a.alert_type == AlertKind.consecutiveLong

/-- The alert is a final volume spike. -/
def isFinalKind (a : AlertData ι) : Bool :=
  a.alert_type == AlertKind.finalVolumeSpike

/-- The alert is a priority alert. -/
def isPriorityKind (a : AlertData ι) : Bool :=
  a.alert_type == AlertKind.priority

/-- Embedding of `AlertManager._analyze_imbalance`: fetch the last 20 closed
candles and call the analyzer only when at least 15 are available. -/
def analyzeImbalance (analyzer : List Candle → Option ι) (dbOk : Bool)
    (table : List KlineRow) (symbol : String) : Option ι :=
  let candles := get_recent_candles dbOk table symbol 20
  if candles.length < 15 then none else analyzer candles

/-- Embedding of `AlertManager._get_order_book_snapshot`: the source always
returns `None` (the Bybit order-book fetch is an unimplemented stub). -/
def getOrderBookSnapshot (stg : Settings) (symbol : String) : Option Unit :=
  none

/-- Embedding of `AlertManager._check_volume_alert`: fetch historical volumes,
run the (external) volume validator against the symbol's cooldown entry, and on
success build the volume-spike alert, optionally attaching imbalance and
order-book data, and write `alert_cooldowns[symbol] = now`. Returns the
optional alert and the resulting `alert_cooldowns` map. -/
def checkVolumeAlert (vval : String → Kline → List ℚ → Option ℤ → ValidationResult)
    (analyzer : List Candle → Option ι) (dbOk : Bool) (table : List KlineRow)
    (stg : Settings) (now : ℤ) (symbol : String) (k : Kline) (st : AMState ι) :
    Option (AlertData ι) × (String → Option ℤ) :=
  let historical_volumes := get_historical_long_volumes dbOk table symbol
    stg.analysis_hours stg.offset_minutes stg.volume_type now
  let last_alert_timestamp := st.alert_cooldowns symbol
  let validation_result := vval symbol k historical_volumes last_alert_timestamp
  if validation_result.valid = false then (none, st.alert_cooldowns)
  else
    let current_price := k.close
    let candle_data : CandleData :=
      { open_ := k.open_, high := k.high, low := k.low, close := current_price,
        volume := k.volume, alert_level := some current_price }
    let imbalance_data :=
      if stg.imbalance_enabled then analyzeImbalance analyzer dbOk table symbol
      else none
    let has_imbalance := imbalance_data.isSome
    let order_book_snapshot :=
      if stg.orderbook_snapshot_on_alert then getOrderBookSnapshot stg symbol
      else none
    (some
      { symbol := symbol, alert_type := .volumeSpike, price := current_price,
        volume_ratio := some (ValidationResult.volume_ratio validation_result),
        current_volume_usdt := some validation_result.current_volume_usdt,
        average_volume_usdt := some validation_result.average_volume_usdt,
        timestamp := now, close_timestamp := some now, is_closed := some true,
        is_true_signal := some true, is_preliminary := none,
        consecutive_count := none, has_imbalance := some has_imbalance,
        imbalance_data := imbalance_data, candle_data := some candle_data,
        order_book_snapshot := order_book_snapshot, preliminary_timestamp := none },
     mapInsert st.alert_cooldowns symbol now)

/-- Embedding of `AlertManager._check_consecutive_long_alert`: reject while the
counter is below the threshold; reject while the cooldown entry under the key
`symbol ++ "_consecutive"` is truthy and younger than
`alert_grouping_minutes`; otherwise build the alert (with an unconditional
imbalance analysis) and write the cooldown entry to `now`. Returns the
optional alert and the resulting `alert_cooldowns` map. -/
def checkConsecutiveLongAlert (analyzer : List Candle → Option ι) (dbOk : Bool)
    (table : List KlineRow) (stg : Settings) (now : ℤ) (symbol : String)
    (k : Kline) (st : AMState ι) : Option (AlertData ι) × (String → Option ℤ) :=
  let consecutive_count := st.consecutive_long_counters symbol
  if consecutive_count < stg.consecutive_long_count then (none, st.alert_cooldowns)
  else
    let last_alert_key := symbol ++ "_consecutive"
    let last_alert_timestamp := st.alert_cooldowns last_alert_key
    let cooldown_period_ms := stg.alert_grouping_minutes * 60 * 1000
    let blocked : Bool := match last_alert_timestamp with
      | some t => decide (t ≠ 0) && decide (now - t < cooldown_period_ms)
      | none => false
    if blocked then (none, st.alert_cooldowns)
    else
      let current_price := k.close
      let candle_data : CandleData :=
        { open_ := k.open_, high := k.high, low := k.low, close := current_price,
          volume := k.volume, alert_level := none }
      let imbalance_data := analyzeImbalance analyzer dbOk table symbol
      let has_imbalance := imbalance_data.isSome
      (some
        { symbol := symbol, alert_type := .consecutiveLong, price := current_price,
          volume_ratio := none, current_volume_usdt := none,
          average_volume_usdt := none, timestamp := now,
          close_timestamp := some now, is_closed := some true,
          is_true_signal := none, is_preliminary := none,
          consecutive_count := some consecutive_count,
          has_imbalance := some has_imbalance, imbalance_data := imbalance_data,
          candle_data := some candle_data, order_book_snapshot := none,
          preliminary_timestamp := none },
       mapInsert st.alert_cooldowns last_alert_key now)

/-- Embedding of `AlertManager._check_recent_volume_alert_in_range`: true when
the volume cooldown entry (plain `symbol` key) is truthy and at most
`candles_back` minutes old, or a pending preliminary signal's timestamp is at
most `candles_back` minutes old. -/
def checkRecentVolumeAlertInRange (st : AMState ι) (now : ℤ) (symbol : String)
    (candles_back : ℕ) : Bool :=
  let time_range_ms : ℤ := (candles_back : ℤ) * 60 * 1000
  (match st.alert_cooldowns symbol with
    | some t => decide (t ≠ 0) && decide (now - t ≤ time_range_ms)
    | none => false) ||
  (match st.preliminary_signals symbol with
    | some p => decide (now - AlertData.timestamp p ≤ time_range_ms)
    | none => false)

end Manager2

section Manager3

variable {ι : Type}

/-- Embedding of `AlertManager._check_priority_signal`. The volume alert is the
last `volume_spike`/`final_volume_spike` of this cycle's list, the consecutive
alert the last `consecutive_long`. The probe runs only when a consecutive alert
is present; `consecutive_alert['consecutive_count']` is a direct key access
there, so a missing key raises and the surrounding `except` yields `None` with
no mutation. On validation success the candle snapshot is
`consecutive_alert['candle_data']` updated **in place** with the volume alert's
snapshot (Python aliasing: the consecutive record's own dict is mutated), so
the function returns both the optional priority alert and the current cycle
list after that mutation. -/
def checkPrioritySignal (st : AMState ι) (now : ℤ) (symbol : String)
    (current_alerts : List (AlertData ι)) :
    Option (AlertData ι) × List (AlertData ι) :=
  let volume_alert := (current_alerts.filter isVolumeFamily).getLast?
  let consecutive_alert := (current_alerts.filter isConsecutiveKind).getLast?
  match consecutive_alert with
  | none =>
    -- probe skipped; validate_priority_alert rejects without a consecutive alert
    (none, current_alerts)
  | some ca =>
    match AlertData.consecutive_count ca with
    | none => (none, current_alerts)  -- KeyError in the probe call, caught
    | some n =>
      let recent_volume_alert := checkRecentVolumeAlertInRange st now symbol n
      if validate_priority_alert volume_alert.isSome true recent_volume_alert = false then
        (none, current_alerts)
      else
        let base := AlertData.candle_data ca
        let vcd := volume_alert.bind AlertData.candle_data
        let merged : Option CandleData :=
          match base, vcd with
          | some c, some v => some (dictUpdate c v)
          | some c, none => some c
          | none, some v => some v
          | none, none => none
        let hasImbVolume : Bool :=
          (volume_alert.map fun va => (AlertData.has_imbalance va).getD false).getD false
        let hasImbCons : Bool := (AlertData.has_imbalance ca).getD false
        let has_imbalance : Bool := hasImbVolume || hasImbCons
        let imbalance_data : Option ι :=
          if hasImbVolume then volume_alert.bind AlertData.imbalance_data
          else if hasImbCons then AlertData.imbalance_data ca
          else none
        let priority_data : AlertData ι :=
          { symbol := symbol, alert_type := .priority, price := AlertData.price ca,
            volume_ratio := volume_alert.bind AlertData.volume_ratio,
            current_volume_usdt := volume_alert.bind AlertData.current_volume_usdt,
            average_volume_usdt := volume_alert.bind AlertData.average_volume_usdt,
            timestamp := now, close_timestamp := some now, is_closed := some true,
            is_true_signal := none, is_preliminary := none,
            consecutive_count := some n, has_imbalance := some has_imbalance,
            imbalance_data := imbalance_data, candle_data := merged,
            order_book_snapshot := none, preliminary_timestamp := none }
        let mutated_alerts :=
          if base.isSome && vcd.isSome then
            replaceLast isConsecutiveKind
              { ca with candle_data := merged } current_alerts
          else current_alerts
        (some priority_data, mutated_alerts)

/-- Embedding of `AlertManager._process_closed_candle`: update the run counter,
resolve a pending preliminary signal into a final alert (clearing it
unconditionally), then run the volume, consecutive and priority detectors
guarded by their enable toggles, accumulating this cycle's alert list in that
order. -/
def processClosedCandle (vval : String → Kline → List ℚ → Option ℤ → ValidationResult)
    (analyzer : List Candle → Option ι) (dbOk : Bool) (table : List KlineRow)
    (stg : Settings) (now : ℤ) (symbol : String) (k : Kline) (st : AMState ι) :
    List (AlertData ι) × AMState ι :=
  let counters1 := updateConsecutiveLongCounter st.consecutive_long_counters symbol k
  let pre := st.preliminary_signals symbol
  let finalAlert := if pre.isSome then checkFinalVolumeSignal now symbol k pre else none
  let prelim1 : String → Option (AlertData ι) :=
    if pre.isSome then (fun s => if s = symbol then none else st.preliminary_signals s)
    else st.preliminary_signals
  let st1 : AMState ι := ⟨st.alert_cooldowns, counters1, prelim1⟩
  let alerts1 := finalAlert.toList
  let r1 :=
    if stg.volume_alerts_enabled then
      checkVolumeAlert vval analyzer dbOk table stg now symbol k st1
    else (none, st1.alert_cooldowns)
  let st2 : AMState ι := ⟨r1.2, counters1, prelim1⟩
  let alerts2 := alerts1 ++ r1.1.toList
  let r2 :=
    if stg.consecutive_alerts_enabled then
      checkConsecutiveLongAlert analyzer dbOk table stg now symbol k st2
    else (none, st2.alert_cooldowns)
  let st3 : AMState ι := ⟨r2.2, counters1, prelim1⟩
  let alerts3 := alerts2 ++ r2.1.toList
  let r3 :=
    if stg.priority_alerts_enabled then checkPrioritySignal st3 now symbol alerts3
    else (none, alerts3)
  let alerts4 := r3.2 ++ r3.1.toList
  (alerts4, st3)

/-- Outcome of one `process_kline_data` call: the list the method returns, the
alerts it actually hands to `_send_alert` (dispatcher/sinks), and the state. -/
structure ProcessResult (ι : Type) where
  returned : List (AlertData ι)
  dispatched : List (AlertData ι)
  state : AMState ι

/-- Embedding of `AlertManager.process_kline_data`. An unconfirmed candle runs
only the preliminary check, stores an emitted signal (overwriting the pending
one) and **returns before the dispatch loop**. A confirmed candle is re-checked
through the time manager's closure predicate when available (`tmClosed`),
processed through `_process_closed_candle` when closed, and every alert of the
resulting list is then sent, in list order. -/
def processKlineData (vval : String → Kline → List ℚ → Option ℤ → ValidationResult)
    (analyzer : List Candle → Option ι) (dbOk : Bool) (table : List KlineRow)
    (stg : Settings) (tmClosed : Option (Kline → Bool)) (now : ℤ)
    (symbol : String) (k : Kline) (st : AMState ι) : ProcessResult ι :=
  if k.confirm = false then
    match checkPreliminaryVolumeSignal stg dbOk table now symbol k with
    | some a =>
      { returned := [a], dispatched := [],
        state := { st with preliminary_signals :=
          fun s => if s = symbol then some a else st.preliminary_signals s } }
    | none => { returned := [], dispatched := [], state := st }
  else
    let is_closed := match tmClosed with
      | some f => f k
      | none => k.confirm
    if is_closed then
      let r := processClosedCandle vval analyzer dbOk table stg now symbol k st
      { returned := r.1, dispatched := r.1, state := r.2 }
    else { returned := [], dispatched := [], state := st }

end Manager3

section Manager4

variable {ι : Type}

/-- Fresh manager state: no cooldown entries, zero counters, no pending
preliminary signals (the dictionaries as `__init__` creates them). -/
def initialState : AMState ι := ⟨fun _ => none, fun _ => 0, fun _ => none⟩

/-- Folding `_process_closed_candle` over a sequence of confirmed candles for
one symbol. -/
def runClosedCandles (vval : String → Kline → List ℚ → Option ℤ → ValidationResult)
    (analyzer : List Candle → Option ι) (dbOk : Bool) (table : List KlineRow)
    (stg : Settings) (now : ℤ) (symbol : String) :
    AMState ι → List Kline → AMState ι
  | st, [] => st
  | st, k :: ks =>
    runClosedCandles vval analyzer dbOk table stg now symbol
      (processClosedCandle vval analyzer dbOk table stg now symbol k st).2 ks

/-- The recent-volume probe in the words of the spec (§4.6), stated over the
state at the start of the confirmed-candle cycle: the symbol's VolumeSpike
cooldown entry is at most `n` minutes old, or a pending or just-resolved
preliminary signal's timestamp falls within the same `n`-minute window. -/
def specRecentVolumeProbe (st : AMState ι) (now : ℤ) (symbol : String) (n : ℕ) : Prop :=
  (∃ t, st.alert_cooldowns symbol = some t ∧ now - t ≤ (n : ℤ) * 60 * 1000) ∨
  (∃ p, st.preliminary_signals symbol = some p ∧
    now - AlertData.timestamp p ≤ (n : ℤ) * 60 * 1000)

end Manager4

/-- A volume validator instance used where the volume detector is disabled or
its outcome irrelevant: it always rejects. -/
def vval0 : String → Kline → List ℚ → Option ℤ → ValidationResult :=
  fun _ _ _ _ => ⟨false, 0, 0, 0⟩

/-- An imbalance analyzer instance that never reports a pattern. -/
def analyzer0 : List Candle → Option Unit := fun _ => none

/-- An imbalance analyzer instance that reports the length of its input. -/
def analyzer9 : List Candle → Option ℕ := fun cs => some cs.length

/-- Baseline settings (the repository defaults, with imbalance and order-book
features off so that scenarios stay self-contained). -/
def stgBase : Settings :=
  { volume_alerts_enabled := true, consecutive_alerts_enabled := true,
    priority_alerts_enabled := true, analysis_hours := 1, offset_minutes := 0,
    volume_multiplier := 2, min_volume_usdt := 1000, consecutive_long_count := 5,
    alert_grouping_minutes := 5, imbalance_enabled := false,
    orderbook_enabled := false, orderbook_snapshot_on_alert := false,
    volume_type := "long" }

/-- A confirmed long candle: open 100, close 110, volume 50. -/
def kLong : Kline := ⟨100, 111, 99, 110, 50, true⟩

/-- The same candle as an unconfirmed streaming tick. -/
def kw2 : Kline := ⟨100, 111, 99, 110, 50, false⟩

/-- A persisted closed long minute-candle of symbol `X` with quote volume
1000 at the given start time. -/
def mkRow (t : ℤ) : KlineRow :=
  { symbol := "X", start_time := t, open_price := 999, high_price := 1001,
    low_price := 998, close_price := 1000, volume := 1,
    is_closed := true, is_long := true }

/-- Clock value for the historical-window scenarios. -/
def now2 : ℤ := 10000000

/-- Ten persisted long candles inside the 1-hour window before `now2`. -/
def table2 : List KlineRow :=
  [mkRow 6500000, mkRow 6560000, mkRow 6620000, mkRow 6680000, mkRow 6740000,
   mkRow 6800000, mkRow 6860000, mkRow 6920000, mkRow 6980000, mkRow 7040000]

/-- Settings with run threshold 3 (Scenario B of the spec). -/
def stg5 : Settings := { stgBase with consecutive_long_count := 3 }

/-- State whose consecutive counter for `X` already reads 3, with no cooldown
entries. -/
def st5 : AMState Unit :=
  ⟨fun _ => none, fun s => if s = "X" then 3 else 0, fun _ => none⟩

/-- Fifteen persisted closed candles of symbol `X` (for the imbalance
call-contract scenario). -/
def table9 : List KlineRow :=
  [mkRow 1000, mkRow 2000, mkRow 3000, mkRow 4000, mkRow 5000,
   mkRow 6000, mkRow 7000, mkRow 8000, mkRow 9000, mkRow 10000,
   mkRow 11000, mkRow 12000, mkRow 13000, mkRow 14000, mkRow 15000]

/-- A concrete pending preliminary signal for symbol `X`. -/
def pConc : AlertData Unit :=
  { symbol := "X", alert_type := .preliminaryVolumeSpike, price := 110,
    volume_ratio := some (11/2), current_volume_usdt := some 5500,
    average_volume_usdt := some 1000, timestamp := 9970000,
    close_timestamp := none, is_closed := some false, is_true_signal := none,
    is_preliminary := some true, consecutive_count := none,
    has_imbalance := none, imbalance_data := none,
    candle_data := some ⟨100, 111, 99, 110, 50, some 110⟩,
    order_book_snapshot := none, preliminary_timestamp := none }

/-- State with `pConc` pending for `X` and nothing else. -/
def st3w : AMState Unit :=
  ⟨fun _ => none, fun _ => 0, fun s => if s = "X" then some pConc else none⟩

/-- Clock value for the priority scenario. -/
def now4 : ℤ := 1000000000

/-- Settings for the priority scenario: volume detector disabled, run
threshold 3. -/
def stg4 : Settings :=
  { stgBase with volume_alerts_enabled := false, consecutive_long_count := 3 }

/-- State for the priority scenario: a volume cooldown entry one minute old,
counter at 2 (the confirmed candle will raise it to 3), nothing pending. -/
def st4 : AMState Unit :=
  ⟨fun s => if s = "X" then some (now4 - 60000) else none,
   fun s => if s = "X" then 2 else 0, fun _ => none⟩

/-- Five persisted closed long candles: the history a restart-resync would
recompute the counter from. -/
def table6 : List KlineRow :=
  [mkRow 1000, mkRow 2000, mkRow 3000, mkRow 4000, mkRow 5000]

/-- The per-symbol candle history corresponding to `table6` plus the current
confirmed long candle: six long candles in a row. -/
def klines6 : List Kline := [kLong, kLong, kLong, kLong, kLong, kLong]

/-- Settings for the mutation scenario: volume detector disabled, run
threshold 1. -/
def stg10 : Settings :=
  { stgBase with volume_alerts_enabled := false, consecutive_long_count := 1 }

/-- A pending preliminary signal for the mutation scenario. -/
def p10 : AlertData Unit :=
  { pConc with timestamp := now4 - 30000 }

/-- State for the mutation scenario: `p10` pending for `X`, zero counters, no
cooldowns. -/
def st10 : AMState Unit :=
  ⟨fun _ => none, fun _ => 0, fun s => if s = "X" then some p10 else none⟩

/-- The manager state at the moment `_check_consecutive_long_alert` runs inside
the mutation scenario's cycle: counter updated by the current long candle and
the pending preliminary signal already cleared. -/
def stMid10 : AMState Unit :=
  ⟨st10.alert_cooldowns,
   updateConsecutiveLongCounter st10.consecutive_long_counters "X" kLong,
   fun s => if s = "X" then none else st10.preliminary_signals s⟩

section CycleDecomp

variable {ι : Type}

/-- The manager state after the counter update and the unconditional clearing
of the pending preliminary signal (steps 1-2 of `_process_closed_candle`). -/
def stAfterFinal (symbol : String) (k : Kline) (st : AMState ι) : AMState ι :=
  ⟨st.alert_cooldowns,
   updateConsecutiveLongCounter st.consecutive_long_counters symbol k,
   if (st.preliminary_signals symbol).isSome then
     (fun s => if s = symbol then none else st.preliminary_signals s)
   else st.preliminary_signals⟩

/-- The final-volume-signal outcome of the cycle (step 2). -/
def finalStep (now : ℤ) (symbol : String) (k : Kline) (st : AMState ι) :
    Option (AlertData ι) :=
  if (st.preliminary_signals symbol).isSome then
    checkFinalVolumeSignal now symbol k (st.preliminary_signals symbol)
  else none

/-- The volume-detector outcome of the cycle (step 3), guarded by its enable
toggle. -/
def volStep (vval : String → Kline → List ℚ → Option ℤ → ValidationResult)
    (analyzer : List Candle → Option ι) (dbOk : Bool) (table : List KlineRow)
    (stg : Settings) (now : ℤ) (symbol : String) (k : Kline) (st1 : AMState ι) :
    Option (AlertData ι) × (String → Option ℤ) :=
  if stg.volume_alerts_enabled then
    checkVolumeAlert vval analyzer dbOk table stg now symbol k st1
  else (none, st1.alert_cooldowns)

/-- The manager state after the volume detector. -/
def stAfterVol (vval : String → Kline → List ℚ → Option ℤ → ValidationResult)
    (analyzer : List Candle → Option ι) (dbOk : Bool) (table : List KlineRow)
    (stg : Settings) (now : ℤ) (symbol : String) (k : Kline) (st : AMState ι) : AMState ι :=
  ⟨(volStep vval analyzer dbOk table stg now symbol k (stAfterFinal symbol k st)).2,
   (stAfterFinal symbol k st).consecutive_long_counters,
   (stAfterFinal symbol k st).preliminary_signals⟩

/-- The consecutive-run-detector outcome of the cycle (step 4), guarded by its
enable toggle. -/
def consStep (analyzer : List Candle → Option ι) (dbOk : Bool) (table : List KlineRow)
    (stg : Settings) (now : ℤ) (symbol : String) (k : Kline) (st2 : AMState ι) :
    Option (AlertData ι) × (String → Option ℤ) :=
  if stg.consecutive_alerts_enabled then
    checkConsecutiveLongAlert analyzer dbOk table stg now symbol k st2
  else (none, st2.alert_cooldowns)

/-- The manager state after the consecutive-run detector (the cycle's final
state). -/
def stAfterCons (vval : String → Kline → List ℚ → Option ℤ → ValidationResult)
    (analyzer : List Candle → Option ι) (dbOk : Bool) (table : List KlineRow)
    (stg : Settings) (now : ℤ) (symbol : String) (k : Kline) (st : AMState ι) : AMState ι :=
  ⟨(consStep analyzer dbOk table stg now symbol k
      (stAfterVol vval analyzer dbOk table stg now symbol k st)).2,
   (stAfterFinal symbol k st).consecutive_long_counters,
   (stAfterFinal symbol k st).preliminary_signals⟩

/-- The cycle's alert list before the priority combiner. -/
def cycleAlerts3 (vval : String → Kline → List ℚ → Option ℤ → ValidationResult)
    (analyzer : List Candle → Option ι) (dbOk : Bool) (table : List KlineRow)
    (stg : Settings) (now : ℤ) (symbol : String) (k : Kline) (st : AMState ι) :
    List (AlertData ι) :=
  ((finalStep now symbol k st).toList ++
    ((volStep vval analyzer dbOk table stg now symbol k (stAfterFinal symbol k st)).1).toList) ++
    ((consStep analyzer dbOk table stg now symbol k
      (stAfterVol vval analyzer dbOk table stg now symbol k st)).1).toList

end CycleDecomp

/-!
Theorems. Shared helper lemmas come first; each audited claim is then settled
by exactly one theorem (with a witness instantiation where the theorem carries
hypotheses).
-/

theorem runCounterUpdates_append (counters : String → ℕ) (symbol : String)
    (l1 l2 : List Kline) :
    runCounterUpdates counters symbol (l1 ++ l2) =
      runCounterUpdates (runCounterUpdates counters symbol l1) symbol l2 := by
  induction l1 generalizing counters with
  | nil => rfl
  | cons k ks ih => simp [runCounterUpdates, ih]

theorem updateConsecutiveLongCounter_self (counters : String → ℕ) (symbol : String)
    (k : Kline) :
    updateConsecutiveLongCounter counters symbol k symbol =
      if isLongCandle k then counters symbol + 1 else 0 := by
  unfold updateConsecutiveLongCounter
  by_cases h : isLongCandle k <;> simp [h]

theorem trailingLongRun_append_single (ks : List Kline) (k : Kline) :
    trailingLongRun (ks ++ [k]) =
      if isLongCandle k then trailingLongRun ks + 1 else 0 := by
  unfold trailingLongRun
  rw [List.reverse_append]
  by_cases h : isLongCandle k <;> simp [h, List.takeWhile]

theorem runCounterUpdates_zero_trailing (symbol : String) (ks : List Kline) :
    runCounterUpdates (fun _ => 0) symbol ks symbol = trailingLongRun ks := by
  induction ks using List.reverseRecOn with
  | nil => rfl
  | append_singleton l k ih =>
    rw [runCounterUpdates_append, trailingLongRun_append_single]
    by_cases h : isLongCandle k <;>
      simp [runCounterUpdates, updateConsecutiveLongCounter_self, h, ih]

theorem processClosedCandle_counters {ι : Type}
    (vval : String → Kline → List ℚ → Option ℤ → ValidationResult)
    (analyzer : List Candle → Option ι) (dbOk : Bool) (table : List KlineRow)
    (stg : Settings) (now : ℤ) (symbol : String) (k : Kline) (st : AMState ι) :
    (processClosedCandle vval analyzer dbOk table stg now symbol k st).2.consecutive_long_counters =
      updateConsecutiveLongCounter st.consecutive_long_counters symbol k := rfl

theorem runClosedCandles_counters {ι : Type}
    (vval : String → Kline → List ℚ → Option ℤ → ValidationResult)
    (analyzer : List Candle → Option ι) (dbOk : Bool) (table : List KlineRow)
    (stg : Settings) (now : ℤ) (symbol : String) (st : AMState ι) (ks : List Kline) :
    (runClosedCandles vval analyzer dbOk table stg now symbol st ks).consecutive_long_counters =
      runCounterUpdates st.consecutive_long_counters symbol ks := by
  induction ks generalizing st with
  | nil => rfl
  | cons k ks ih =>
    show (runClosedCandles vval analyzer dbOk table stg now symbol
      (processClosedCandle vval analyzer dbOk table stg now symbol k st).2 ks).consecutive_long_counters = _
    rw [ih, processClosedCandle_counters, runCounterUpdates]

/-- C1: over any sequence of confirmed candles processed through the
closed-candle pipeline from a fresh state, the symbol's consecutive-long
counter ends up equal to the length of the maximal trailing run of candles
with close > open; each cycle updates the counters exactly through
`_update_consecutive_long_counter`, whose single step increments the symbol's
counter by exactly 1 on close > open and resets it to 0 otherwise (from any
height). -/
theorem consecutive_counter_is_trailing_run {ι : Type}
    (vval : String → Kline → List ℚ → Option ℤ → ValidationResult)
    (analyzer : List Candle → Option ι) (dbOk : Bool) (table : List KlineRow)
    (stg : Settings) (now : ℤ) (symbol : String) (ks : List Kline) :
    (runClosedCandles vval analyzer dbOk table stg now symbol initialState ks).consecutive_long_counters symbol =
      trailingLongRun ks ∧
    (∀ (st : AMState ι) (k : Kline),
      (processClosedCandle vval analyzer dbOk table stg now symbol k st).2.consecutive_long_counters =
        updateConsecutiveLongCounter st.consecutive_long_counters symbol k) ∧
    (∀ (counters : String → ℕ) (k : Kline),
      updateConsecutiveLongCounter counters symbol k symbol =
        if k.open_ < k.close then counters symbol + 1 else 0) := by
  refine ⟨?_, ?_, ?_⟩
  · rw [runClosedCandles_counters]
    exact runCounterUpdates_zero_trailing symbol ks
  · intro st k
    exact processClosedCandle_counters vval analyzer dbOk table stg now symbol k st
  · intro counters k
    rw [updateConsecutiveLongCounter_self]
    by_cases h : k.open_ < k.close <;> simp [isLongCandle, h]

theorem self_ne_consecutive_key (s : String) : s ≠ s ++ "_consecutive" := by
  intro h
  have hlen := congrArg String.length h
  rw [String.length_append] at hlen
  have h12 : ("_consecutive" : String).length = 12 := by decide
  omega

/-- C5: the consecutive-run detector never fires while the entry under the
dedicated key `symbol ++ "_consecutive"` is a (positive) timestamp younger
than the cooldown window; its decision depends only on cooldown entries other
than the VolumeSpike key (plain `symbol`); with no prior entry it fires as
soon as the counter reaches the threshold; and the dedicated entry is set to
`now` exactly when the alert fires (the cooldown map is untouched
otherwise). -/
theorem consecutive_cooldown_enforced {ι : Type} (analyzer : List Candle → Option ι)
    (dbOk : Bool) (table : List KlineRow) (stg : Settings) (now : ℤ)
    (symbol : String) (k : Kline) (st : AMState ι) :
    (∀ t, st.alert_cooldowns (symbol ++ "_consecutive") = some t → 0 < t →
      now - t < stg.alert_grouping_minutes * 60 * 1000 →
      (checkConsecutiveLongAlert analyzer dbOk table stg now symbol k st).1 = none) ∧
    (∀ cd' : String → Option ℤ, (∀ s, s ≠ symbol → cd' s = st.alert_cooldowns s) →
      (checkConsecutiveLongAlert analyzer dbOk table stg now symbol k
        ⟨cd', st.consecutive_long_counters, st.preliminary_signals⟩).1 =
      (checkConsecutiveLongAlert analyzer dbOk table stg now symbol k st).1) ∧
    (st.alert_cooldowns (symbol ++ "_consecutive") = none →
      stg.consecutive_long_count ≤ st.consecutive_long_counters symbol →
      ((checkConsecutiveLongAlert analyzer dbOk table stg now symbol k st).1).isSome = true) ∧
    (((checkConsecutiveLongAlert analyzer dbOk table stg now symbol k st).1).isSome = true →
      (checkConsecutiveLongAlert analyzer dbOk table stg now symbol k st).2
        (symbol ++ "_consecutive") = some now) ∧
    (((checkConsecutiveLongAlert analyzer dbOk table stg now symbol k st).1).isSome = false →
      (checkConsecutiveLongAlert analyzer dbOk table stg now symbol k st).2 =
        st.alert_cooldowns) := by
  refine ⟨?_, ?_, ?_, ?_, ?_⟩
  · intro t ht hpos hlt
    by_cases h1 : st.consecutive_long_counters symbol < stg.consecutive_long_count
    · simp [checkConsecutiveLongAlert, h1]
    · simp [checkConsecutiveLongAlert, h1, ht, hpos.ne', hlt]
  · intro cd' hcd'
    have hkey := hcd' (symbol ++ "_consecutive") (Ne.symm (self_ne_consecutive_key symbol))
    by_cases h1 : st.consecutive_long_counters symbol < stg.consecutive_long_count
    · simp [checkConsecutiveLongAlert, h1]
    · rcases hcd : st.alert_cooldowns (symbol ++ "_consecutive") with _ | t
      · simp [checkConsecutiveLongAlert, h1, hcd, hkey.trans hcd]
      · by_cases hb : ¬t = 0 ∧ now - t < stg.alert_grouping_minutes * 60 * 1000
        · simp [checkConsecutiveLongAlert, h1, hcd, hkey.trans hcd, hb]
        · simp [checkConsecutiveLongAlert, h1, hcd, hkey.trans hcd, hb]
  · intro hnone hge
    simp [checkConsecutiveLongAlert, hnone, Nat.not_lt.mpr hge]
  · intro hsome
    by_cases h1 : st.consecutive_long_counters symbol < stg.consecutive_long_count
    · simp [checkConsecutiveLongAlert, h1] at hsome
    · rcases hcd : st.alert_cooldowns (symbol ++ "_consecutive") with _ | t
      · simp [checkConsecutiveLongAlert, h1, hcd, mapInsert]
      · by_cases hb : ¬t = 0 ∧ now - t < stg.alert_grouping_minutes * 60 * 1000
        · simp [checkConsecutiveLongAlert, h1, hcd, hb] at hsome
        · simp [checkConsecutiveLongAlert, h1, hcd, hb, mapInsert]
  · intro hnone
    by_cases h1 : st.consecutive_long_counters symbol < stg.consecutive_long_count
    · simp [checkConsecutiveLongAlert, h1]
    · rcases hcd : st.alert_cooldowns (symbol ++ "_consecutive") with _ | t
      · simp [checkConsecutiveLongAlert, h1, hcd] at hnone
      · by_cases hb : ¬t = 0 ∧ now - t < stg.alert_grouping_minutes * 60 * 1000
        · simp [checkConsecutiveLongAlert, h1, hcd, hb]
        · simp [checkConsecutiveLongAlert, h1, hcd, hb] at hnone

/-- Witness for C5: with threshold 3, a counter at 3 and no cooldown entry,
the consecutive alert fires and the dedicated cooldown key is written. -/
theorem consecutive_cooldown_enforced_witness :
    st5.alert_cooldowns ("X" ++ "_consecutive") = none ∧
    stg5.consecutive_long_count ≤ st5.consecutive_long_counters "X" ∧
    ((checkConsecutiveLongAlert analyzer0 true [] stg5 1000000 "X" kLong st5).1).isSome = true ∧
    (checkConsecutiveLongAlert analyzer0 true [] stg5 1000000 "X" kLong st5).2
      ("X" ++ "_consecutive") = some 1000000 := by
  have h := consecutive_cooldown_enforced analyzer0 true [] stg5 1000000 "X" kLong st5
  have h3 := h.2.2.1 rfl (by decide)
  exact ⟨rfl, by decide, h3, h.2.2.2.1 h3⟩

theorem code_ratio_eq_spec_ratio (cv : ℚ) (hv : List ℚ) (hne : hv ≠ [])
    (hnn : ∀ x ∈ hv, 0 ≤ x) :
    (if 0 < hv.sum / (hv.length : ℚ) then cv / (hv.sum / (hv.length : ℚ)) else 0) =
      cv / (hv.sum / (hv.length : ℚ)) := by
  by_cases h : 0 < hv.sum / (hv.length : ℚ)
  · simp [h]
  · have hs : 0 ≤ hv.sum := List.sum_nonneg hnn
    have hl : 0 < (hv.length : ℚ) := by
      have := List.length_pos.mpr hne
      exact_mod_cast this
    have hmean : hv.sum / (hv.length : ℚ) = 0 :=
      le_antisymm (not_lt.mp h) (div_nonneg hs hl.le)
    simp [hmean]

/-- C2: for an unconfirmed candle, a preliminary volume signal is emitted if
and only if close > open, quote volume reaches the configured floor, at least
10 historical quote-volume samples are available, and current quote volume
divided by the mean historical quote volume reaches the multiplier; on
emission the signal overwrites the symbol's single pending entry, otherwise
the pending entry (and every other symbol's) is untouched; the call returns
exactly the emitted signal. -/
theorem preliminary_emission_iff {ι : Type}
    (vval : String → Kline → List ℚ → Option ℤ → ValidationResult)
    (analyzer : List Candle → Option ι) (dbOk : Bool) (table : List KlineRow)
    (stg : Settings) (tmClosed : Option (Kline → Bool)) (now : ℤ)
    (symbol : String) (k : Kline) (st : AMState ι)
    (hconf : k.confirm = false)
    (hnn : ∀ x ∈ get_historical_long_volumes dbOk table symbol stg.analysis_hours
      stg.offset_minutes stg.volume_type now, 0 ≤ x) :
    ((checkPreliminaryVolumeSignal (ι := ι) stg dbOk table now symbol k).isSome = true ↔
      (k.open_ < k.close ∧ stg.min_volume_usdt ≤ k.volume * k.close ∧
        10 ≤ (get_historical_long_volumes dbOk table symbol stg.analysis_hours
          stg.offset_minutes stg.volume_type now).length ∧
        stg.volume_multiplier ≤ (k.volume * k.close) /
          ((get_historical_long_volumes dbOk table symbol stg.analysis_hours
            stg.offset_minutes stg.volume_type now).sum /
          ((get_historical_long_volumes dbOk table symbol stg.analysis_hours
            stg.offset_minutes stg.volume_type now).length : ℚ)))) ∧
    (∀ s, ((processKlineData vval analyzer dbOk table stg tmClosed now symbol k st).state).preliminary_signals s =
      if s = symbol ∧ (checkPreliminaryVolumeSignal (ι := ι) stg dbOk table now symbol k).isSome = true then
        checkPreliminaryVolumeSignal (ι := ι) stg dbOk table now symbol k
      else st.preliminary_signals s) ∧
    (processKlineData vval analyzer dbOk table stg tmClosed now symbol k st).returned =
      (checkPreliminaryVolumeSignal (ι := ι) stg dbOk table now symbol k).toList := by
  refine ⟨?_, ?_, ?_⟩
  · by_cases h1 : k.close ≤ k.open_
    · simp [checkPreliminaryVolumeSignal, h1, not_lt.mpr h1]
    · have h1' : k.open_ < k.close := not_le.mp h1
      by_cases h2 : k.volume * k.close < stg.min_volume_usdt
      · simp [checkPreliminaryVolumeSignal, h1, h2, not_le.mpr h2]
      · by_cases h3 : (get_historical_long_volumes dbOk table symbol stg.analysis_hours
          stg.offset_minutes stg.volume_type now).length < 10
        · simp [checkPreliminaryVolumeSignal, h1, h2, h3, not_le.mpr h3]
        · have hlen10 : 10 ≤ (get_historical_long_volumes dbOk table symbol
            stg.analysis_hours stg.offset_minutes stg.volume_type now).length :=
            not_lt.mp h3
          have hne : get_historical_long_volumes dbOk table symbol stg.analysis_hours
              stg.offset_minutes stg.volume_type now ≠ [] := by
            intro h
            rw [h] at hlen10
            simp at hlen10
          have hr := code_ratio_eq_spec_ratio (k.volume * k.close)
            (get_historical_long_volumes dbOk table symbol stg.analysis_hours
              stg.offset_minutes stg.volume_type now) hne hnn
          simp only [checkPreliminaryVolumeSignal, if_neg h1, if_neg h2, if_neg h3, hr]
          by_cases h4 : (k.volume * k.close) /
            ((get_historical_long_volumes dbOk table symbol stg.analysis_hours
              stg.offset_minutes stg.volume_type now).sum /
            ((get_historical_long_volumes dbOk table symbol stg.analysis_hours
              stg.offset_minutes stg.volume_type now).length : ℚ)) < stg.volume_multiplier
          · simp [h4, not_le.mpr h4]
          · simp [h4, not_lt.mp h4, h1', not_lt.mp h2, hlen10]
  · intro s
    rcases hc : checkPreliminaryVolumeSignal (ι := ι) stg dbOk table now symbol k with _ | a
    · simp [processKlineData, hconf, hc]
    · by_cases hs : s = symbol <;> simp [processKlineData, hconf, hc, hs]
  · rcases hc : checkPreliminaryVolumeSignal (ι := ι) stg dbOk table now symbol k with _ | a <;>
      simp [processKlineData, hconf, hc]

/-- Witness for C2: Scenario A's data on an unconfirmed tick (quote volume
5500 against ten history samples of 1000, multiplier 2) emits the signal. -/
theorem preliminary_emission_iff_witness :
    kw2.confirm = false ∧
    (∀ x ∈ get_historical_long_volumes true table2 "X" stgBase.analysis_hours
      stgBase.offset_minutes stgBase.volume_type now2, 0 ≤ x) ∧
    (checkPreliminaryVolumeSignal (ι := Unit) stgBase true table2 now2 "X" kw2).isSome = true := by
  have hnn : ∀ x ∈ get_historical_long_volumes true table2 "X" stgBase.analysis_hours
      stgBase.offset_minutes stgBase.volume_type now2, 0 ≤ x := by
    norm_num [get_historical_long_volumes, table2, mkRow, dirCond, asciiLower, now2, stgBase,
      List.insertionSort, List.orderedInsert, List.filter_cons]
  have h := preliminary_emission_iff vval0 analyzer0 true table2 stgBase none now2 "X" kw2
    initialState rfl hnn
  refine ⟨rfl, hnn, h.1.mpr ?_⟩
  norm_num [get_historical_long_volumes, table2, mkRow, dirCond, asciiLower, now2, stgBase, kw2,
    List.insertionSort, List.orderedInsert, List.filter_cons]

/-- C9: the imbalance analyzer's caller requests the last 20 confirmed
candles; the analyzer is invoked exactly when at least 15 are available (so
always with between 15 and 20 candles, all confirmed), and the imbalance
result is omitted otherwise. -/
theorem imbalance_call_contract {ι : Type} (analyzer : List Candle → Option ι)
    (dbOk : Bool) (table : List KlineRow) (symbol : String) :
    (get_recent_candles dbOk table symbol 20).length ≤ 20 ∧
    (∀ c ∈ get_recent_candles dbOk table symbol 20, c.is_closed = true) ∧
    ((get_recent_candles dbOk table symbol 20).length < 15 →
      analyzeImbalance analyzer dbOk table symbol = none) ∧
    (15 ≤ (get_recent_candles dbOk table symbol 20).length →
      analyzeImbalance analyzer dbOk table symbol =
        analyzer (get_recent_candles dbOk table symbol 20)) := by
  refine ⟨?_, ?_, ?_, ?_⟩
  · cases dbOk
    · simp [get_recent_candles]
    · simp only [get_recent_candles, if_true]
      rw [List.length_map, List.length_reverse]
      exact List.length_take_le 20 _
  · intro c hc
    cases dbOk
    · simp [get_recent_candles] at hc
    · simp only [get_recent_candles, if_true] at hc
      obtain ⟨r, hr, rfl⟩ := List.mem_map.mp hc
      have hr1 : r ∈ (List.filter (fun r => decide (r.symbol = symbol) && r.is_closed) table).insertionSort
          (fun a b => b.start_time ≤ a.start_time) :=
        List.mem_of_mem_take (List.mem_reverse.mp hr)
      have hr2 := (List.mem_insertionSort _).mp hr1
      have hr3 := (List.mem_filter.mp hr2).2
      rw [Bool.and_eq_true] at hr3
      exact hr3.2
  · intro h
    unfold analyzeImbalance
    rw [if_pos h]
  · intro h
    unfold analyzeImbalance
    rw [if_neg (by omega)]

/-- Witness for C9: fifteen persisted confirmed candles make the caller invoke
the analyzer with exactly that sequence. -/
theorem imbalance_call_contract_witness :
    15 ≤ (get_recent_candles true table9 "X" 20).length ∧
    analyzeImbalance analyzer9 true table9 "X" =
      analyzer9 (get_recent_candles true table9 "X" 20) := by
  have h := imbalance_call_contract analyzer9 true table9 "X"
  exact ⟨by decide, h.2.2.2 (by decide)⟩

theorem replaceLast_filter {α : Type} (p q : α → Bool) (x : α)
    (hpq : ∀ a, p a = true → q a = false) (hx : q x = false) :
    ∀ l : List α, (replaceLast p x l).filter q = l.filter q := by
  intro l
  induction l with
  | nil => rfl
  | cons a as ih =>
    by_cases h1 : as.any p
    · simp only [replaceLast, h1, if_true, List.filter_cons, ih]
    · by_cases h2 : p a = true
      · simp [replaceLast, h1, h2, List.filter_cons, hx, hpq a h2]
      · simp [replaceLast, h1, h2]

theorem checkVolumeAlert_kind {ι : Type}
    (vval : String → Kline → List ℚ → Option ℤ → ValidationResult)
    (analyzer : List Candle → Option ι) (dbOk : Bool) (table : List KlineRow)
    (stg : Settings) (now : ℤ) (symbol : String) (k : Kline) (st : AMState ι) :
    ∀ a, (checkVolumeAlert vval analyzer dbOk table stg now symbol k st).1 = some a →
      a.alert_type = AlertKind.volumeSpike ∧
      (checkVolumeAlert vval analyzer dbOk table stg now symbol k st).2 =
        mapInsert st.alert_cooldowns symbol now := by
  intro a h
  simp only [checkVolumeAlert] at h ⊢
  by_cases hv : (vval symbol k (get_historical_long_volumes dbOk table symbol
      stg.analysis_hours stg.offset_minutes stg.volume_type now)
      (st.alert_cooldowns symbol)).valid = false
  · rw [if_pos hv] at h
    simp at h
  · rw [if_neg hv] at h ⊢
    simp only [Option.some.injEq] at h
    subst h
    exact ⟨rfl, rfl⟩

theorem checkVolumeAlert_none_cooldowns {ι : Type}
    (vval : String → Kline → List ℚ → Option ℤ → ValidationResult)
    (analyzer : List Candle → Option ι) (dbOk : Bool) (table : List KlineRow)
    (stg : Settings) (now : ℤ) (symbol : String) (k : Kline) (st : AMState ι) :
    (checkVolumeAlert vval analyzer dbOk table stg now symbol k st).1 = none →
      (checkVolumeAlert vval analyzer dbOk table stg now symbol k st).2 =
        st.alert_cooldowns := by
  intro h
  simp only [checkVolumeAlert] at h ⊢
  by_cases hv : (vval symbol k (get_historical_long_volumes dbOk table symbol
      stg.analysis_hours stg.offset_minutes stg.volume_type now)
      (st.alert_cooldowns symbol)).valid = false
  · rw [if_pos hv]
  · rw [if_neg hv] at h
    simp at h

theorem checkConsecutiveLongAlert_kind {ι : Type} (analyzer : List Candle → Option ι)
    (dbOk : Bool) (table : List KlineRow) (stg : Settings) (now : ℤ)
    (symbol : String) (k : Kline) (st : AMState ι) :
    (∀ a ∈ (checkConsecutiveLongAlert analyzer dbOk table stg now symbol k st).1,
      a.alert_type = AlertKind.consecutiveLong ∧
      a.consecutive_count = some (st.consecutive_long_counters symbol)) ∧
    (((checkConsecutiveLongAlert analyzer dbOk table stg now symbol k st).1).isSome = true →
      (checkConsecutiveLongAlert analyzer dbOk table stg now symbol k st).2 =
        mapInsert st.alert_cooldowns (symbol ++ "_consecutive") now) := by
  by_cases h1 : st.consecutive_long_counters symbol < stg.consecutive_long_count
  · simp [checkConsecutiveLongAlert, h1]
  · rcases hcd : st.alert_cooldowns (symbol ++ "_consecutive") with _ | t
    · simp [checkConsecutiveLongAlert, h1, hcd]
    · by_cases hb : ¬t = 0 ∧ now - t < stg.alert_grouping_minutes * 60 * 1000
      · simp [checkConsecutiveLongAlert, h1, hcd, hb]
      · simp [checkConsecutiveLongAlert, h1, hcd, hb]

theorem checkConsecutiveLongAlert_none_cooldowns {ι : Type}
    (analyzer : List Candle → Option ι) (dbOk : Bool) (table : List KlineRow)
    (stg : Settings) (now : ℤ) (symbol : String) (k : Kline) (st : AMState ι) :
    (checkConsecutiveLongAlert analyzer dbOk table stg now symbol k st).1 = none →
      (checkConsecutiveLongAlert analyzer dbOk table stg now symbol k st).2 =
        st.alert_cooldowns := by
  intro h
  by_cases h1 : st.consecutive_long_counters symbol < stg.consecutive_long_count
  · simp [checkConsecutiveLongAlert, h1]
  · rcases hcd : st.alert_cooldowns (symbol ++ "_consecutive") with _ | t
    · simp [checkConsecutiveLongAlert, h1, hcd] at h
    · by_cases hb : ¬t = 0 ∧ now - t < stg.alert_grouping_minutes * 60 * 1000
      · simp [checkConsecutiveLongAlert, h1, hcd, hb]
      · simp [checkConsecutiveLongAlert, h1, hcd, hb] at h

theorem checkFinalVolumeSignal_kind {ι : Type} (now : ℤ) (symbol : String)
    (k : Kline) (p : AlertData ι) :
    ∀ a, checkFinalVolumeSignal now symbol k (some p) = some a →
      a.alert_type = AlertKind.finalVolumeSpike := by
  intro a h
  unfold checkFinalVolumeSignal at h
  simp only [Option.some.injEq] at h
  subst h
  rfl

theorem checkPrioritySignal_preserves_filter {ι : Type} (st : AMState ι) (now : ℤ)
    (symbol : String) (al : List (AlertData ι)) (q : AlertData ι → Bool)
    (hq1 : ∀ a : AlertData ι, isConsecutiveKind a = true → q a = false)
    (hq2 : ∀ a : AlertData ι, a.alert_type = AlertKind.priority → q a = false) :
    ((checkPrioritySignal st now symbol al).2 ++
      ((checkPrioritySignal st now symbol al).1).toList).filter q = al.filter q := by
  rcases hc : (al.filter isConsecutiveKind).getLast? with _ | ca
  · simp [checkPrioritySignal, hc]
  · have hca : isConsecutiveKind ca = true :=
      (List.mem_filter.mp (List.mem_of_mem_getLast? hc)).2
    have hca' : ∀ (cd : Option CandleData) (cc : Option ℕ),
        q { ca with candle_data := cd, consecutive_count := cc } = false := by
      intro cd cc
      apply hq1
      simpa [isConsecutiveKind] using hca
    rcases hcount : AlertData.consecutive_count ca with _ | n
    · simp [checkPrioritySignal, hc, hcount]
    · by_cases hval : validate_priority_alert ((al.filter isVolumeFamily).getLast?).isSome true
        (checkRecentVolumeAlertInRange st now symbol n) = false
      · simp only [checkPrioritySignal, hc, hcount]
        rw [if_pos hval]
        simp
      · simp only [checkPrioritySignal, hc, hcount]
        rw [if_neg hval]
        simp only [Option.toList_some, List.filter_append]
        split
        · rw [replaceLast_filter isConsecutiveKind q _ hq1 (hca' _ _)]
          simp [List.filter_cons, hq2]
        · simp [List.filter_cons, hq2]

/-- C3: whenever a preliminary signal is pending for the symbol, the
confirmed-candle cycle emits exactly one final volume spike; it carries the
preliminary's ratio and volume figures and `is_true_signal = (close > open)`;
this happens for every setting of the volume-detector toggle (the settings are
arbitrary), and the pending signal is cleared unconditionally. -/
theorem final_resolution_exact {ι : Type}
    (vval : String → Kline → List ℚ → Option ℤ → ValidationResult)
    (analyzer : List Candle → Option ι) (dbOk : Bool) (table : List KlineRow)
    (stg : Settings) (now : ℤ) (symbol : String) (k : Kline) (st : AMState ι)
    (p : AlertData ι) (hp : st.preliminary_signals symbol = some p) :
    ((processClosedCandle vval analyzer dbOk table stg now symbol k st).1.filter isFinalKind =
      (checkFinalVolumeSignal now symbol k (some p)).toList) ∧
    (∀ a ∈ (processClosedCandle vval analyzer dbOk table stg now symbol k st).1.filter isFinalKind,
      AlertData.volume_ratio a = AlertData.volume_ratio p ∧
      a.current_volume_usdt = p.current_volume_usdt ∧
      a.average_volume_usdt = p.average_volume_usdt ∧
      a.is_true_signal = some (decide (k.open_ < k.close))) ∧
    (processClosedCandle vval analyzer dbOk table stg now symbol k st).2.preliminary_signals symbol = none := by
  have hq1 : ∀ a : AlertData ι, isConsecutiveKind a = true → isFinalKind a = false := by
    intro a h
    simp only [isConsecutiveKind, beq_iff_eq] at h
    simp [isFinalKind, h]
  have hq2 : ∀ a : AlertData ι, a.alert_type = AlertKind.priority → isFinalKind a = false := by
    intro a h
    simp [isFinalKind, h]
  have hvolpart : ∀ st' : AMState ι,
      ((if stg.volume_alerts_enabled then
          checkVolumeAlert vval analyzer dbOk table stg now symbol k st'
        else (none, st'.alert_cooldowns)).1).toList.filter isFinalKind = [] := by
    intro st'
    by_cases hvol : stg.volume_alerts_enabled
    · rw [if_pos hvol]
      rcases hr : (checkVolumeAlert vval analyzer dbOk table stg now symbol k st').1 with _ | v
      · simp
      · have hv := (checkVolumeAlert_kind vval analyzer dbOk table stg now symbol k st' v hr).1
        simp [isFinalKind, hv]
    · rw [if_neg hvol]
      simp
  have hconspart : ∀ st' : AMState ι,
      ((if stg.consecutive_alerts_enabled then
          checkConsecutiveLongAlert analyzer dbOk table stg now symbol k st'
        else (none, st'.alert_cooldowns)).1).toList.filter isFinalKind = [] := by
    intro st'
    by_cases hcons : stg.consecutive_alerts_enabled
    · rw [if_pos hcons]
      rcases hr : (checkConsecutiveLongAlert analyzer dbOk table stg now symbol k st').1 with _ | c
      · simp
      · have hc := ((checkConsecutiveLongAlert_kind analyzer dbOk table stg now symbol k st').1 c
          (by simp [hr])).1
        simp [isFinalKind, hc]
    · rw [if_neg hcons]
      simp
  have hfinpart : (checkFinalVolumeSignal (ι := ι) now symbol k (some p)).toList.filter isFinalKind =
      (checkFinalVolumeSignal (ι := ι) now symbol k (some p)).toList := by
    simp [checkFinalVolumeSignal, isFinalKind]
  have key : (processClosedCandle vval analyzer dbOk table stg now symbol k st).1.filter isFinalKind =
      (checkFinalVolumeSignal now symbol k (some p)).toList := by
    simp only [processClosedCandle, hp, Option.isSome_some, eq_self_iff_true, if_true]
    by_cases hpri : stg.priority_alerts_enabled
    · rw [if_pos hpri]
      rw [checkPrioritySignal_preserves_filter _ _ _ _ isFinalKind hq1 hq2]
      rw [List.filter_append, List.filter_append, hvolpart, hconspart, hfinpart]
      simp
    · rw [if_neg hpri]
      simp only [Option.toList_none, List.append_nil]
      rw [List.filter_append, List.filter_append, hvolpart, hconspart, hfinpart]
      simp
  refine ⟨key, ?_, ?_⟩
  · intro a ha
    rw [key] at ha
    simp only [checkFinalVolumeSignal, Option.toList_some, List.mem_singleton] at ha
    subst ha
    exact ⟨rfl, rfl, rfl, rfl⟩
  · simp [processClosedCandle, hp]

/-- Witness for C3: with `pConc` pending for `X` and default settings, the
cycle on a confirmed long candle emits exactly one final signal and clears the
pending entry. -/
theorem final_resolution_exact_witness :
    st3w.preliminary_signals "X" = some pConc ∧
    ((processClosedCandle vval0 analyzer0 true [] stgBase now2 "X" kLong st3w).1.filter
      isFinalKind = (checkFinalVolumeSignal now2 "X" kLong (some pConc)).toList) ∧
    (processClosedCandle vval0 analyzer0 true [] stgBase now2 "X" kLong st3w).2.preliminary_signals "X" = none := by
  have h := final_resolution_exact vval0 analyzer0 true [] stgBase now2 "X" kLong st3w pConc rfl
  exact ⟨rfl, h.1, h.2.2⟩

/-- C8 (amended): a validation rejection and an upstream data failure reach the
caller as the same observable outcome: a failed history query yields the same
empty list as an absent history, and the preliminary detector's run under a
query failure is literally indistinguishable from its run with no history
(both are a bare `None` with no reason code). -/
theorem rejection_failure_same_outcome {ι : Type} (stg : Settings)
    (table : List KlineRow) (now : ℤ) (symbol : String) (k : Kline)
    (hours offm : ℤ) (vt : String) :
    get_historical_long_volumes false table symbol hours offm vt now = [] ∧
    checkPreliminaryVolumeSignal (ι := ι) stg false table now symbol k =
      checkPreliminaryVolumeSignal (ι := ι) stg true [] now symbol k := by
  constructor
  · rfl
  · have h1 : get_historical_long_volumes false table symbol stg.analysis_hours
        stg.offset_minutes stg.volume_type now = [] := rfl
    have h2 : get_historical_long_volumes true [] symbol stg.analysis_hours
        stg.offset_minutes stg.volume_type now = [] := by
      simp [get_historical_long_volumes]
    simp only [checkPreliminaryVolumeSignal, h1, h2]

/-- C8 (counterexample): with ten valid history rows present, a run whose
history query fails upstream (and which would have emitted a signal had the
query succeeded) returns the same bare `none` as a run whose history is
genuinely too short, so the claim that any caller can distinguish a validation
rejection from an upstream data failure is false at this input. -/
theorem rejection_failure_cex :
    (checkPreliminaryVolumeSignal (ι := Unit) stgBase true table2 now2 "X" kw2).isSome = true ∧
    checkPreliminaryVolumeSignal (ι := Unit) stgBase false table2 now2 "X" kw2 = none ∧
    checkPreliminaryVolumeSignal (ι := Unit) stgBase true [] now2 "X" kw2 = none ∧
    checkPreliminaryVolumeSignal (ι := Unit) stgBase false table2 now2 "X" kw2 =
      checkPreliminaryVolumeSignal (ι := Unit) stgBase true [] now2 "X" kw2 := by
  refine ⟨?_, ?_, ?_, ?_⟩
  · norm_num [checkPreliminaryVolumeSignal, get_historical_long_volumes, table2, mkRow,
      dirCond, asciiLower, now2, stgBase, kw2, List.insertionSort, List.orderedInsert,
      List.filter_cons]
  · norm_num [checkPreliminaryVolumeSignal, get_historical_long_volumes, stgBase, kw2]
  · norm_num [checkPreliminaryVolumeSignal, get_historical_long_volumes, stgBase, kw2]
  · norm_num [checkPreliminaryVolumeSignal, get_historical_long_volumes, stgBase, kw2]

theorem processClosedCandle_decomp {ι : Type}
    (vval : String → Kline → List ℚ → Option ℤ → ValidationResult)
    (analyzer : List Candle → Option ι) (dbOk : Bool) (table : List KlineRow)
    (stg : Settings) (now : ℤ) (symbol : String) (k : Kline) (st : AMState ι) :
    processClosedCandle vval analyzer dbOk table stg now symbol k st =
    ((if stg.priority_alerts_enabled then
        checkPrioritySignal (stAfterCons vval analyzer dbOk table stg now symbol k st)
          now symbol (cycleAlerts3 vval analyzer dbOk table stg now symbol k st)
      else (none, cycleAlerts3 vval analyzer dbOk table stg now symbol k st)).2 ++
      ((if stg.priority_alerts_enabled then
        checkPrioritySignal (stAfterCons vval analyzer dbOk table stg now symbol k st)
          now symbol (cycleAlerts3 vval analyzer dbOk table stg now symbol k st)
      else (none, cycleAlerts3 vval analyzer dbOk table stg now symbol k st)).1).toList,
     stAfterCons vval analyzer dbOk table stg now symbol k st) := rfl

theorem stAfterFinal_prelim_self {ι : Type} (symbol : String) (k : Kline)
    (st : AMState ι) :
    (stAfterFinal symbol k st).preliminary_signals symbol = none := by
  unfold stAfterFinal
  rcases hp : st.preliminary_signals symbol with _ | p
  · simp [hp]
  · simp [hp]

theorem finalStep_shape {ι : Type} (now : ℤ) (symbol : String) (k : Kline)
    (st : AMState ι) :
    (∀ a ∈ finalStep now symbol k st, a.alert_type = AlertKind.finalVolumeSpike) ∧
    (finalStep now symbol k st).isSome = (st.preliminary_signals symbol).isSome := by
  refine ⟨?_, ?_⟩
  · intro a ha
    rcases hp : st.preliminary_signals symbol with _ | p
    · simp [finalStep, hp] at ha
    · simp [finalStep, hp, checkFinalVolumeSignal] at ha
      subst ha
      rfl
  · rcases hp : st.preliminary_signals symbol with _ | p <;>
      simp [finalStep, hp, checkFinalVolumeSignal]

theorem volStep_shape {ι : Type}
    (vval : String → Kline → List ℚ → Option ℤ → ValidationResult)
    (analyzer : List Candle → Option ι) (dbOk : Bool) (table : List KlineRow)
    (stg : Settings) (now : ℤ) (symbol : String) (k : Kline) (st1 : AMState ι) :
    (∀ a ∈ (volStep vval analyzer dbOk table stg now symbol k st1).1,
      a.alert_type = AlertKind.volumeSpike) ∧
    (((volStep vval analyzer dbOk table stg now symbol k st1).1).isSome = false →
      (volStep vval analyzer dbOk table stg now symbol k st1).2 = st1.alert_cooldowns) ∧
    (((volStep vval analyzer dbOk table stg now symbol k st1).1).isSome = true →
      (volStep vval analyzer dbOk table stg now symbol k st1).2 =
        mapInsert st1.alert_cooldowns symbol now) := by
  by_cases hv : stg.volume_alerts_enabled
  · simp only [volStep, if_pos hv]
    refine ⟨?_, ?_, ?_⟩
    · intro a ha
      exact (checkVolumeAlert_kind vval analyzer dbOk table stg now symbol k st1 a
        (Option.mem_def.mp ha)).1
    · intro h
      rcases hr : (checkVolumeAlert vval analyzer dbOk table stg now symbol k st1).1 with _ | v
      · exact checkVolumeAlert_none_cooldowns vval analyzer dbOk table stg now symbol k st1 hr
      · rw [hr] at h
        simp at h
    · intro h
      rcases hr : (checkVolumeAlert vval analyzer dbOk table stg now symbol k st1).1 with _ | v
      · rw [hr] at h
        simp at h
      · exact (checkVolumeAlert_kind vval analyzer dbOk table stg now symbol k st1 v hr).2
  · simp [volStep, hv]

theorem consStep_shape {ι : Type} (analyzer : List Candle → Option ι) (dbOk : Bool)
    (table : List KlineRow) (stg : Settings) (now : ℤ) (symbol : String) (k : Kline)
    (st2 : AMState ι) :
    (∀ a ∈ (consStep analyzer dbOk table stg now symbol k st2).1,
      a.alert_type = AlertKind.consecutiveLong ∧
      a.consecutive_count = some (st2.consecutive_long_counters symbol)) ∧
    (((consStep analyzer dbOk table stg now symbol k st2).1).isSome = false →
      (consStep analyzer dbOk table stg now symbol k st2).2 = st2.alert_cooldowns) ∧
    (((consStep analyzer dbOk table stg now symbol k st2).1).isSome = true →
      (consStep analyzer dbOk table stg now symbol k st2).2 =
        mapInsert st2.alert_cooldowns (symbol ++ "_consecutive") now) := by
  by_cases hc : stg.consecutive_alerts_enabled
  · simp only [consStep, if_pos hc]
    refine ⟨?_, ?_, ?_⟩
    · intro a ha
      exact (checkConsecutiveLongAlert_kind analyzer dbOk table stg now symbol k st2).1 a ha
    · intro h
      rcases hr : (checkConsecutiveLongAlert analyzer dbOk table stg now symbol k st2).1 with _ | c
      · exact checkConsecutiveLongAlert_none_cooldowns analyzer dbOk table stg now symbol k st2 hr
      · rw [hr] at h
        simp at h
    · intro h
      exact (checkConsecutiveLongAlert_kind analyzer dbOk table stg now symbol k st2).2 h
  · simp [consStep, hc]

theorem code_probe_eq_spec {ι : Type} (st' st : AMState ι) (now : ℤ)
    (symbol : String) (n : ℕ)
    (hcool : st'.alert_cooldowns symbol = st.alert_cooldowns symbol)
    (hpre' : st'.preliminary_signals symbol = none)
    (hpre : st.preliminary_signals symbol = none)
    (hcd : Option.all (fun t => decide (0 < t)) (st.alert_cooldowns symbol) = true) :
    (checkRecentVolumeAlertInRange st' now symbol n = true ↔
      specRecentVolumeProbe st now symbol n) := by
  unfold checkRecentVolumeAlertInRange specRecentVolumeProbe
  rw [hcool, hpre']
  rcases hc2 : st.alert_cooldowns symbol with _ | t
  · simp [hpre]
  · rw [hc2] at hcd
    simp only [Option.all_some] at hcd
    have ht : 0 < t := by simpa using hcd
    simp [hpre, ht.ne']

theorem kind_preds_of_final {ι : Type} (a : AlertData ι)
    (h : a.alert_type = AlertKind.finalVolumeSpike) :
    isVolumeFamily a = true ∧ isConsecutiveKind a = false ∧ isPriorityKind a = false := by
  simp [isVolumeFamily, isConsecutiveKind, isPriorityKind, h]

theorem kind_preds_of_volume {ι : Type} (a : AlertData ι)
    (h : a.alert_type = AlertKind.volumeSpike) :
    isVolumeFamily a = true ∧ isConsecutiveKind a = false ∧ isPriorityKind a = false := by
  simp [isVolumeFamily, isConsecutiveKind, isPriorityKind, h]

theorem kind_preds_of_cons {ι : Type} (a : AlertData ι)
    (h : a.alert_type = AlertKind.consecutiveLong) :
    isVolumeFamily a = false ∧ isConsecutiveKind a = true ∧ isPriorityKind a = false := by
  simp [isVolumeFamily, isConsecutiveKind, isPriorityKind, h]

/-- C4 (`validate_priority_alert` modelled from the spec, §4.6): with the
priority combiner enabled and every stored volume-cooldown timestamp positive,
a confirmed-candle cycle outputs a priority alert exactly when it outputs a
consecutive-long alert and either it also outputs a volume or final volume
spike, or the spec's recent-volume probe (volume cooldown entry or
pending/just-resolved preliminary signal within the consecutive count's
minute window, evaluated on the pre-cycle state) holds. -/
theorem priority_iff_cycle {ι : Type}
    (vval : String → Kline → List ℚ → Option ℤ → ValidationResult)
    (analyzer : List Candle → Option ι) (dbOk : Bool) (table : List KlineRow)
    (stg : Settings) (now : ℤ) (symbol : String) (k : Kline) (st : AMState ι)
    (hen : stg.priority_alerts_enabled = true)
    (hcd : Option.all (fun t => decide (0 < t)) (st.alert_cooldowns symbol) = true) :
    ((processClosedCandle vval analyzer dbOk table stg now symbol k st).1.any isPriorityKind = true ↔
      ∃ ca, ((processClosedCandle vval analyzer dbOk table stg now symbol k st).1.filter
          isConsecutiveKind).getLast? = some ca ∧
        ((processClosedCandle vval analyzer dbOk table stg now symbol k st).1.any isVolumeFamily = true ∨
          specRecentVolumeProbe st now symbol ((AlertData.consecutive_count ca).getD 0))) := by
  obtain ⟨hFk, hFs⟩ := finalStep_shape (ι := ι) now symbol k st
  obtain ⟨hVk, hVn, hVs⟩ := volStep_shape vval analyzer dbOk table stg now symbol k
    (stAfterFinal symbol k st)
  obtain ⟨hCk, hCn, hCs⟩ := consStep_shape analyzer dbOk table stg now symbol k
    (stAfterVol vval analyzer dbOk table stg now symbol k st)
  rw [processClosedCandle_decomp, if_pos hen]
  rcases hF : finalStep now symbol k st with _ | f <;>
    rcases hV : (volStep vval analyzer dbOk table stg now symbol k
      (stAfterFinal symbol k st)).1 with _ | v <;>
    rcases hC : (consStep analyzer dbOk table stg now symbol k
      (stAfterVol vval analyzer dbOk table stg now symbol k st)).1 with _ | c
  · simp [checkPrioritySignal, cycleAlerts3, hF, hV, hC]
  · obtain ⟨hcVol, hcCons, hcPrio⟩ := kind_preds_of_cons c (hCk c hC).1
    have hcT := (hCk c hC).1
    have hcN := (hCk c hC).2
    have hpre : st.preliminary_signals symbol = none := by
      rcases hpp : st.preliminary_signals symbol with _ | q
      · rfl
      · rw [hF, hpp] at hFs
        simp at hFs
    have hpre2 : (stAfterCons vval analyzer dbOk table stg now symbol k st).preliminary_signals symbol = none :=
      stAfterFinal_prelim_self symbol k st
    have hcool : (stAfterCons vval analyzer dbOk table stg now symbol k st).alert_cooldowns symbol =
        st.alert_cooldowns symbol := by
      show (consStep analyzer dbOk table stg now symbol k
        (stAfterVol vval analyzer dbOk table stg now symbol k st)).2 symbol = _
      rw [hCs (by rw [hC]; rfl)]
      simp only [mapInsert]
      rw [if_neg (self_ne_consecutive_key symbol)]
      show (volStep vval analyzer dbOk table stg now symbol k (stAfterFinal symbol k st)).2 symbol = _
      rw [hVn (by rw [hV]; rfl)]
      rfl
    have hprobe := code_probe_eq_spec (stAfterCons vval analyzer dbOk table stg now symbol k st) st
      now symbol ((stAfterVol vval analyzer dbOk table stg now symbol k st).consecutive_long_counters symbol)
      hcool hpre2 hpre hcd
    simp only [cycleAlerts3, hF, hV, hC, Option.toList_some, Option.toList_none,
      List.nil_append, List.append_nil]
    by_cases hREC : checkRecentVolumeAlertInRange
        (stAfterCons vval analyzer dbOk table stg now symbol k st) now symbol
        ((stAfterVol vval analyzer dbOk table stg now symbol k st).consecutive_long_counters symbol) = true
    · simp [checkPrioritySignal, hcT, hcCons, hcVol, hcPrio, hcN, validate_priority_alert, hREC,
        isPriorityKind, isConsecutiveKind, isVolumeFamily, hprobe.mp hREC]
    · simp only [Bool.not_eq_true] at hREC
      simp [checkPrioritySignal, hcT, hcCons, hcVol, hcPrio, hcN, validate_priority_alert, hREC,
        isPriorityKind, isConsecutiveKind, isVolumeFamily]
      intro hs
      have hx := hprobe.mpr hs
      rw [hREC] at hx
      exact Bool.noConfusion hx
  · simp [checkPrioritySignal, cycleAlerts3, hF, hV, hC, kind_preds_of_volume v (hVk v hV)]
  · obtain ⟨hcVol, hcCons, hcPrio⟩ := kind_preds_of_cons c (hCk c hC).1
    have hcT := (hCk c hC).1
    have hcN := (hCk c hC).2
    have hvT := hVk v hV
    obtain ⟨hvVol, hvCons, hvPrio⟩ := kind_preds_of_volume v hvT
    simp only [cycleAlerts3, hF, hV, hC, Option.toList_some, Option.toList_none,
      List.nil_append, List.append_nil]
    simp [checkPrioritySignal, hcT, hvT, hcN, validate_priority_alert, replaceLast,
      isPriorityKind, isConsecutiveKind, isVolumeFamily, hcCons, hcVol, hcPrio, hvVol,
      hvCons, hvPrio, List.any_append, List.filter_append]
    split <;> rename_i hmut <;>
      simp [hmut, hcT, hvT, isConsecutiveKind, isVolumeFamily]
  · simp [checkPrioritySignal, cycleAlerts3, hF, hV, hC, kind_preds_of_final f (hFk f hF)]
  · obtain ⟨hcVol, hcCons, hcPrio⟩ := kind_preds_of_cons c (hCk c hC).1
    have hcT := (hCk c hC).1
    have hcN := (hCk c hC).2
    have hfT := hFk f hF
    obtain ⟨hfVol, hfCons, hfPrio⟩ := kind_preds_of_final f hfT
    simp only [cycleAlerts3, hF, hV, hC, Option.toList_some, Option.toList_none,
      List.nil_append, List.append_nil]
    simp [checkPrioritySignal, hcT, hfT, hcN, validate_priority_alert, replaceLast,
      isPriorityKind, isConsecutiveKind, isVolumeFamily, hcCons, hcVol, hcPrio, hfVol,
      hfCons, hfPrio, List.any_append, List.filter_append]
    split <;> rename_i hmut <;>
      simp [hmut, hcT, hfT, isConsecutiveKind, isVolumeFamily]
  · simp [checkPrioritySignal, cycleAlerts3, hF, hV, hC, kind_preds_of_final f (hFk f hF),
      kind_preds_of_volume v (hVk v hV)]
  · obtain ⟨hcVol, hcCons, hcPrio⟩ := kind_preds_of_cons c (hCk c hC).1
    have hcT := (hCk c hC).1
    have hcN := (hCk c hC).2
    have hfT := hFk f hF
    have hvT := hVk v hV
    obtain ⟨hfVol, hfCons, hfPrio⟩ := kind_preds_of_final f hfT
    obtain ⟨hvVol, hvCons, hvPrio⟩ := kind_preds_of_volume v hvT
    simp only [cycleAlerts3, hF, hV, hC, Option.toList_some, Option.toList_none,
      List.nil_append, List.append_nil]
    simp [checkPrioritySignal, hcT, hfT, hvT, hcN, validate_priority_alert, replaceLast,
      isPriorityKind, isConsecutiveKind, isVolumeFamily, hcCons, hcVol, hcPrio, hfVol,
      hfCons, hfPrio, hvVol, hvCons, hvPrio, List.any_append, List.filter_append]
    split <;> rename_i hmut <;>
      simp [hmut, hcT, hfT, hvT, isConsecutiveKind, isVolumeFamily]

/-- C6: the counter is not resynchronized from persisted history. With five
persisted confirmed long candles for `X` and a fresh (restarted) state, the
first confirmed long candle leaves the counter at 1 and fires no consecutive
alert, although the true trailing run over the persisted history plus this
candle is 6 and the threshold is 3 — the code starts from an implicit zero and
never queries the historical provider for a resync. -/
theorem no_restart_resync_counter :
    (processClosedCandle vval0 analyzer0 true table6 stg5 now2 "X" kLong
      (initialState (ι := Unit))).2.consecutive_long_counters "X" = 1 ∧
    (processClosedCandle vval0 analyzer0 true table6 stg5 now2 "X" kLong
      (initialState (ι := Unit))).1 = [] ∧
    trailingLongRun klines6 = 6 ∧
    stg5.consecutive_long_count = 3 := by
  refine ⟨?_, ?_, ?_, rfl⟩
  · rw [processClosedCandle_counters]
    norm_num [updateConsecutiveLongCounter, isLongCandle, kLong, initialState]
  · norm_num [processClosedCandle, checkVolumeAlert, checkConsecutiveLongAlert,
      checkFinalVolumeSignal, checkPrioritySignal, checkRecentVolumeAlertInRange,
      analyzeImbalance, get_recent_candles, get_historical_long_volumes,
      updateConsecutiveLongCounter, isLongCandle, mapInsert, validate_priority_alert,
      replaceLast, dictUpdate, dirCond, asciiLower, getOrderBookSnapshot,
      isConsecutiveKind, isVolumeFamily, isFinalKind, isPriorityKind, vval0, analyzer0,
      initialState, stgBase, stg5, kLong, table6, mkRow, now2, List.insertionSort,
      List.orderedInsert, List.filter_cons]
  · norm_num [trailingLongRun, klines6, kLong, isLongCandle, List.takeWhile]

/-- Distinct alert kinds are unequal (volumeSpike vs preliminaryVolumeSpike), stated as a rewriting
equation so concrete cycle outputs evaluate. -/
@[simp] theorem alertKind_distinct_1 :
    (AlertKind.volumeSpike = AlertKind.preliminaryVolumeSpike) = False := by simp

/-- Distinct alert kinds are unequal (volumeSpike vs finalVolumeSpike), stated as a rewriting
equation so concrete cycle outputs evaluate. -/
@[simp] theorem alertKind_distinct_2 :
    (AlertKind.volumeSpike = AlertKind.finalVolumeSpike) = False := by simp

/-- Distinct alert kinds are unequal (volumeSpike vs consecutiveLong), stated as a rewriting
equation so concrete cycle outputs evaluate. -/
@[simp] theorem alertKind_distinct_3 :
    (AlertKind.volumeSpike = AlertKind.consecutiveLong) = False := by simp

/-- Distinct alert kinds are unequal (volumeSpike vs priority), stated as a rewriting
equation so concrete cycle outputs evaluate. -/
@[simp] theorem alertKind_distinct_4 :
    (AlertKind.volumeSpike = AlertKind.priority) = False := by simp

/-- Distinct alert kinds are unequal (preliminaryVolumeSpike vs volumeSpike), stated as a rewriting
equation so concrete cycle outputs evaluate. -/
@[simp] theorem alertKind_distinct_5 :
    (AlertKind.preliminaryVolumeSpike = AlertKind.volumeSpike) = False := by simp

/-- Distinct alert kinds are unequal (preliminaryVolumeSpike vs finalVolumeSpike), stated as a rewriting
equation so concrete cycle outputs evaluate. -/
@[simp] theorem alertKind_distinct_6 :
    (AlertKind.preliminaryVolumeSpike = AlertKind.finalVolumeSpike) = False := by simp

/-- Distinct alert kinds are unequal (preliminaryVolumeSpike vs consecutiveLong), stated as a rewriting
equation so concrete cycle outputs evaluate. -/
@[simp] theorem alertKind_distinct_7 :
    (AlertKind.preliminaryVolumeSpike = AlertKind.consecutiveLong) = False := by simp

/-- Distinct alert kinds are unequal (preliminaryVolumeSpike vs priority), stated as a rewriting
equation so concrete cycle outputs evaluate. -/
@[simp] theorem alertKind_distinct_8 :
    (AlertKind.preliminaryVolumeSpike = AlertKind.priority) = False := by simp

/-- Distinct alert kinds are unequal (finalVolumeSpike vs volumeSpike), stated as a rewriting
equation so concrete cycle outputs evaluate. -/
@[simp] theorem alertKind_distinct_9 :
    (AlertKind.finalVolumeSpike = AlertKind.volumeSpike) = False := by simp

/-- Distinct alert kinds are unequal (finalVolumeSpike vs preliminaryVolumeSpike), stated as a rewriting
equation so concrete cycle outputs evaluate. -/
@[simp] theorem alertKind_distinct_10 :
    (AlertKind.finalVolumeSpike = AlertKind.preliminaryVolumeSpike) = False := by simp

/-- Distinct alert kinds are unequal (finalVolumeSpike vs consecutiveLong), stated as a rewriting
equation so concrete cycle outputs evaluate. -/
@[simp] theorem alertKind_distinct_11 :
    (AlertKind.finalVolumeSpike = AlertKind.consecutiveLong) = False := by simp

/-- Distinct alert kinds are unequal (finalVolumeSpike vs priority), stated as a rewriting
equation so concrete cycle outputs evaluate. -/
@[simp] theorem alertKind_distinct_12 :
    (AlertKind.finalVolumeSpike = AlertKind.priority) = False := by simp

/-- Distinct alert kinds are unequal (consecutiveLong vs volumeSpike), stated as a rewriting
equation so concrete cycle outputs evaluate. -/
@[simp] theorem alertKind_distinct_13 :
    (AlertKind.consecutiveLong = AlertKind.volumeSpike) = False := by simp

/-- Distinct alert kinds are unequal (consecutiveLong vs preliminaryVolumeSpike), stated as a rewriting
equation so concrete cycle outputs evaluate. -/
@[simp] theorem alertKind_distinct_14 :
    (AlertKind.consecutiveLong = AlertKind.preliminaryVolumeSpike) = False := by simp

/-- Distinct alert kinds are unequal (consecutiveLong vs finalVolumeSpike), stated as a rewriting
equation so concrete cycle outputs evaluate. -/
@[simp] theorem alertKind_distinct_15 :
    (AlertKind.consecutiveLong = AlertKind.finalVolumeSpike) = False := by simp

/-- Distinct alert kinds are unequal (consecutiveLong vs priority), stated as a rewriting
equation so concrete cycle outputs evaluate. -/
@[simp] theorem alertKind_distinct_16 :
    (AlertKind.consecutiveLong = AlertKind.priority) = False := by simp

/-- Distinct alert kinds are unequal (priority vs volumeSpike), stated as a rewriting
equation so concrete cycle outputs evaluate. -/
@[simp] theorem alertKind_distinct_17 :
    (AlertKind.priority = AlertKind.volumeSpike) = False := by simp

/-- Distinct alert kinds are unequal (priority vs preliminaryVolumeSpike), stated as a rewriting
equation so concrete cycle outputs evaluate. -/
@[simp] theorem alertKind_distinct_18 :
    (AlertKind.priority = AlertKind.preliminaryVolumeSpike) = False := by simp

/-- Distinct alert kinds are unequal (priority vs finalVolumeSpike), stated as a rewriting
equation so concrete cycle outputs evaluate. -/
@[simp] theorem alertKind_distinct_19 :
    (AlertKind.priority = AlertKind.finalVolumeSpike) = False := by simp

/-- Distinct alert kinds are unequal (priority vs consecutiveLong), stated as a rewriting
equation so concrete cycle outputs evaluate. -/
@[simp] theorem alertKind_distinct_20 :
    (AlertKind.priority = AlertKind.consecutiveLong) = False := by simp

/-- Witness for C4: a cycle that produces only a consecutive alert (volume
detector disabled, nothing pending) still fires a priority alert because the
volume cooldown entry is one minute old and the run length is 3. -/
theorem priority_iff_cycle_witness :
    stg4.priority_alerts_enabled = true ∧
    Option.all (fun t => decide (0 < t)) (st4.alert_cooldowns "X") = true ∧
    (processClosedCandle vval0 analyzer0 true [] stg4 now4 "X" kLong st4).1.any
      isPriorityKind = true := by
  have h := priority_iff_cycle vval0 analyzer0 true [] stg4 now4 "X" kLong st4 rfl (by decide)
  refine ⟨rfl, by decide, h.mpr ?_⟩
  have hkey : ("X" ++ "_consecutive" : String) = "X_consecutive" := rfl
  have hne : ¬("X_consecutive" : String) = "X" := by decide
  have hne2 : ¬("X" : String) = "X_consecutive" := by decide
  norm_num [hkey, hne, hne2, processClosedCandle, checkVolumeAlert, checkConsecutiveLongAlert,
    checkFinalVolumeSignal, checkPrioritySignal, checkRecentVolumeAlertInRange,
    analyzeImbalance, get_recent_candles, get_historical_long_volumes,
    updateConsecutiveLongCounter, isLongCandle, mapInsert, validate_priority_alert,
    replaceLast, dictUpdate, dirCond, asciiLower, getOrderBookSnapshot,
    isConsecutiveKind, isVolumeFamily, isFinalKind, isPriorityKind, vval0, analyzer0,
    stgBase, stg4, kLong, now4, st4, specRecentVolumeProbe, List.insertionSort,
    List.orderedInsert, List.filter_cons]

/-- C7: an unconfirmed candle that emits a preliminary signal returns it to the
caller but hands nothing to `_send_alert` — the dispatch loop sits after the
unconfirmed path's early return, so the preliminary alert never reaches the
dispatcher or sinks. -/
theorem preliminary_alert_not_dispatched :
    (processKlineData vval0 analyzer0 true table2 stgBase none now2 "X" kw2
      (initialState (ι := Unit))).returned.length = 1 ∧
    (∀ a ∈ (processKlineData vval0 analyzer0 true table2 stgBase none now2 "X" kw2
      (initialState (ι := Unit))).returned,
      a.alert_type = AlertKind.preliminaryVolumeSpike) ∧
    (processKlineData vval0 analyzer0 true table2 stgBase none now2 "X" kw2
      (initialState (ι := Unit))).dispatched = [] := by
  norm_num [processKlineData, checkPreliminaryVolumeSignal, get_historical_long_volumes,
    table2, mkRow, dirCond, asciiLower, now2, stgBase, kw2, vval0, analyzer0, initialState,
    List.insertionSort, List.orderedInsert, List.filter_cons]

/-- C10: the priority combiner's `dict.update` mutates the already-produced
consecutive alert record in place. As created by the consecutive detector the
record's candle snapshot has no `alert_level`; after the same cycle's priority
step (a final volume spike supplies the volume snapshot) the consecutive
record in the cycle's output carries `alert_level = 110`. -/
theorem priority_merge_mutates_consecutive_record :
    (((checkConsecutiveLongAlert analyzer0 true [] stg10 now4 "X" kLong stMid10).1.bind
        AlertData.candle_data).bind CandleData.alert_level) = none ∧
    ((((processClosedCandle vval0 analyzer0 true [] stg10 now4 "X" kLong st10).1.filter
        isConsecutiveKind).head?.bind AlertData.candle_data).bind
        CandleData.alert_level) = some 110 := by
  have hkey : ("X" ++ "_consecutive" : String) = "X_consecutive" := rfl
  have hne : ¬("X_consecutive" : String) = "X" := by decide
  have hne2 : ¬("X" : String) = "X_consecutive" := by decide
  constructor
  · norm_num [hkey, hne, hne2, checkConsecutiveLongAlert, analyzeImbalance, get_recent_candles, stMid10,
      st10, stg10, stgBase, kLong, updateConsecutiveLongCounter, isLongCandle, mapInsert,
      now4, analyzer0, p10, pConc]
  · norm_num [hkey, hne, hne2, processClosedCandle, checkVolumeAlert, checkConsecutiveLongAlert,
      checkFinalVolumeSignal, checkPrioritySignal, checkRecentVolumeAlertInRange,
      analyzeImbalance, get_recent_candles, get_historical_long_volumes,
      updateConsecutiveLongCounter, isLongCandle, mapInsert, validate_priority_alert,
      replaceLast, dictUpdate, dirCond, asciiLower, getOrderBookSnapshot,
      isConsecutiveKind, isVolumeFamily, isFinalKind, isPriorityKind, vval0, analyzer0,
      stgBase, stg10, kLong, now4, st10, p10, pConc, List.filter_cons]
